import Mathlib

/-!
Verification development for a small warp-based control-plane service
(src/main.rs). The service keeps a registry, a HashMap from port (u16) to
RunningServer, behind Arc<Mutex<...>>, with three handlers: list_servers,
post_new_server and delete_server, plus the constructor create_warp_server
and the startup code in main.

The embedding below is a shallow one:
- The map is an association list of (port, RunningServer) pairs; insert and
  remove mirror HashMap insert and HashMap remove (unique keys).
- The mutex is modelled by a poisoned flag on the state: a panic while the
  guard is held poisons the mutex, and every later lock().unwrap() panics.
- The oneshot shutdown channel of a server is identified by a numeric id,
  drawn from a fresh-id counter; the environment says, per id, whether the
  receiver is still alive when send is attempted (send(()).unwrap() panics
  when it is not).
- Binding a socket is environmental: the environment says, per port,
  whether the OS accepts the bind. In warp 0.1 bind_with_graceful_shutdown
  panics when the bind fails, which is how create_warp_server is modelled.
- Each handler also returns the trace of the events it performed, in
  program order (lock acquisition, map calls, channel send, task spawn,
  guard drop), so that ordering claims can be stated.
-/

/-- Port numbers are 16-bit unsigned integers, as in the Rust type u16. -/
abbrev Port := Fin 65536

/-- JSON representation of a server instance (struct ServerJsonBody). -/
structure ServerJsonBody where
  port : Port
deriving DecidableEq, Repr

/-- In-memory representation of a running server (struct RunningServer).
The shutdown field of the Rust struct is a oneshot Sender; here it is the
numeric id of that oneshot channel. -/
structure RunningServer where
  shutdown : Nat
deriving DecidableEq, Repr

/-- The application state map: HashMap<u16, RunningServer>, modelled as an
association list with unique keys. -/
abbrev Database := List (Port × RunningServer)

/-- HashMap contains_key. -/
def dbContains (m : Database) (p : Port) : Bool :=
  m.any (fun e => e.1 = p)

/-- HashMap lookup of the entry stored under a key. -/
def dbGet (m : Database) (p : Port) : Option RunningServer :=
  (m.find? (fun e => e.1 = p)).map (fun e => e.2)

/-- Dropping every entry with the given key; together with dbGet this models
HashMap remove (which returns the removed value). -/
def dbErase (m : Database) (p : Port) : Database :=
  m.filter (fun e => ¬ e.1 = p)

/-- HashMap insert: the new binding replaces any previous binding of the key,
so the key stays unique. -/
def dbInsert (m : Database) (p : Port) (s : RunningServer) : Database :=
  (p, s) :: dbErase m p

/-- Number of entries stored under a key (1 at most, by construction). -/
def dbCountKey (m : Database) (p : Port) : Nat :=
  (m.filter (fun e => e.1 = p)).length

/-- The keys of the map, the ports the registry believes are running. -/
def dbKeys (m : Database) : List Port :=
  m.map (fun e => e.1)

/-- Environmental facts the process does not control: whether the OS accepts
a bind on a given port, and whether the oneshot receiver of a given channel
id is still alive at the moment send is attempted. -/
structure Env where
  bindOk : Port → Bool
  recvAlive : Nat → Bool

/-- State of the shared Arc<Mutex<HashMap<..>>> plus the fresh-id supply for
oneshot channels. The poisoned flag records whether some handler panicked
while holding the mutex guard, which poisons the mutex. -/
structure SysState where
  map : Database
  nextId : Nat
  poisoned : Bool
deriving DecidableEq, Repr

/-- The only rejection value the handlers ever build: warp reject not_found,
returned both by post_new_server on a port conflict and by delete_server on a
missing port. -/
inductive Rejection where
  | notFound
deriving DecidableEq, Repr

/-- Replies the handlers build: warp reply json over the key list, warp reply
json over the posted body, and a bare HTTP status code (204 NO_CONTENT). -/
inductive Reply where
  | jsonPorts (ports : List ServerJsonBody)
  | jsonBody (body : ServerJsonBody)
  | status (code : Nat)
deriving DecidableEq, Repr

/-- Outcome of running a handler: a normal return value, a warp Rejection
(the Err branch of the Result), or a panic. -/
inductive OpResult (α : Type) where
  | ok (a : α)
  | rejected (r : Rejection)
  | panicked
deriving DecidableEq, Repr

/-- Observable events of one handler call, in program order. lock is the
lock().unwrap() call, unlock is the drop of the mutex guard at the end of
the handler body, and the others are the map calls, the oneshot send and the
tokio spawn in between. -/
inductive Event where
  | lock
  | unlock
  | checkExists (p : Port)
  | bindSocket (p : Port)
  | insertKey (p : Port)
  | removeKey (p : Port)
  | sendSignal (chan : Nat)
  | spawn (p : Port)
deriving DecidableEq, Repr

/-- Result of one handler call: the returned value, the state left behind,
and the trace of events performed. -/
structure Outcome (α : Type) where
  result : OpResult α
  state : SysState
  events : List Event
deriving DecidableEq, Repr

/-- Function create_warp_server: makes a fresh oneshot channel and calls
bind_with_graceful_shutdown, which in warp 0.1 panics when the OS refuses
the bind. On success it returns the RunningServer holding the sender
together with the next fresh id; none models the panic. (The returned serve
future is represented only through the spawn event of the caller.) -/
def create_warp_server (env : Env) (nextId : Nat) (port : Port) :
    Option (RunningServer × Nat) :=
  if env.bindOk port then some (⟨nextId⟩, nextId + 1) else none

/-- Handler list_servers: locks the database and renders every key as a
ServerJsonBody record. On a poisoned mutex the initial lock().unwrap()
panics before any event. -/
def list_servers (st : SysState) : Outcome Reply :=
  if st.poisoned then ⟨.panicked, st, []⟩
  else
    ⟨.ok (.jsonPorts ((dbKeys st.map).map (fun p => ⟨p⟩))), st,
      [.lock, .unlock]⟩

/-- Handler post_new_server: locks the database, rejects with not_found when
the port key is present, otherwise calls create_warp_server (which panics on
a bind failure, poisoning the mutex and leaving the map untouched), inserts
the new server, spawns the serve future, and returns the posted body as
json. The guard is dropped when the handler returns, hence after the spawn. -/
def post_new_server (env : Env) (st : SysState) (body : ServerJsonBody) :
    Outcome Reply :=
  if st.poisoned then ⟨.panicked, st, []⟩
  else if dbContains st.map body.port then
    ⟨.rejected .notFound, st, [.lock, .checkExists body.port, .unlock]⟩
  else
    match create_warp_server env st.nextId body.port with
    | some (server, next) =>
        ⟨.ok (.jsonBody body),
          { map := dbInsert st.map body.port server, nextId := next,
            poisoned := false },
          [.lock, .checkExists body.port, .bindSocket body.port,
            .insertKey body.port, .spawn body.port, .unlock]⟩
    | none =>
        ⟨.panicked, { st with poisoned := true },
          [.lock, .checkExists body.port, .bindSocket body.port]⟩

/-- Handler delete_server: locks the database and removes the entry for the
port. When no entry exists it rejects with not_found; when one exists it
sends on the oneshot shutdown channel of the removed entry and unwraps the
send result, which panics (poisoning the still-held mutex, the removal
staying committed) when the receiver is gone; otherwise it returns status
204. The guard is dropped at the end of the handler, after the send. -/
def delete_server (env : Env) (st : SysState) (port : Port) : Outcome Reply :=
  if st.poisoned then ⟨.panicked, st, []⟩
  else
    match dbGet st.map port with
    | some server =>
        if env.recvAlive server.shutdown then
          ⟨.ok (.status 204),
            { st with map := dbErase st.map port },
            [.lock, .removeKey port, .sendSignal server.shutdown, .unlock]⟩
        else
          ⟨.panicked,
            { st with map := dbErase st.map port, poisoned := true },
            [.lock, .removeKey port]⟩
    | none =>
        ⟨.rejected .notFound, st, [.lock, .removeKey port, .unlock]⟩

/-- The map value built by HashMap::new() in main: empty. -/
def initialDatabase : Database := []

/-- Function main up to (and excluding) tokio::run: builds the empty map,
creates the default server on port 8080 and inserts it under the lock.
Returns the state visible to the very first management request, or none when
the default bind itself panics. -/
def mainStartup (env : Env) : Option SysState :=
  match create_warp_server env 0 (8080 : Port) with
  | some (server, next) =>
      some ⟨dbInsert initialDatabase (8080 : Port) server, next, false⟩
  | none => none

/-- Reading of the C4 claim over a trace: every oneshot send happens strictly
after every drop of the mutex guard recorded in the trace. -/
def sendAfterUnlock (es : List Event) : Prop :=
  ∀ i j c, es.get? i = some (.sendSignal c) → es.get? j = some .unlock → j < i

/-- Reading of the C5 claim over a trace: every task spawn happens strictly
after every drop of the mutex guard recorded in the trace. -/
def spawnAfterUnlock (es : List Event) : Prop :=
  ∀ i j p, es.get? i = some (.spawn p) → es.get? j = some .unlock → j < i

/-- Test environment where every bind succeeds and every oneshot receiver is
still alive. -/
def envAll : Env := ⟨fun _ => true, fun _ => true⟩

/-- Test environment where the OS refuses every bind. -/
def envNoBind : Env := ⟨fun _ => false, fun _ => true⟩

/-- Test environment where every oneshot receiver has already gone away (the
serving loop terminated on its own). -/
def envDeadRecv : Env := ⟨fun _ => true, fun _ => false⟩

/-- A sample port. -/
def p0 : Port := (9000 : Port)

/-- The fresh, unpoisoned state with the empty map. -/
def st0 : SysState := ⟨[], 0, false⟩

/-- A state holding one running server on the sample port, whose shutdown
channel has id 0. -/
def st1 : SysState := ⟨[(p0, ⟨0⟩)], 1, false⟩

/-! Helper lemmas about the map operations. -/

/-- Inserting a key makes contains_key answer true for it. -/
theorem dbContains_insert_self (m : Database) (p : Port) (s : RunningServer) :
    dbContains (dbInsert m p s) p = true := by
  simp [dbContains, dbInsert]

/-- Looking up a key right after inserting it returns the inserted value. -/
theorem dbGet_insert_self (m : Database) (p : Port) (s : RunningServer) :
    dbGet (dbInsert m p s) p = some s := by
  simp [dbGet, dbInsert, List.find?]

/-- Erasing a key after inserting it is erasing it from the original map. -/
theorem dbErase_insert_self (m : Database) (p : Port) (s : RunningServer) :
    dbErase (dbInsert m p s) p = dbErase m p := by
  simp [dbErase, dbInsert, List.filter_filter]

/-- After an insert the map holds exactly one entry for the key. -/
theorem dbCountKey_insert_self (m : Database) (p : Port) (s : RunningServer) :
    dbCountKey (dbInsert m p s) p = 1 := by
  simp [dbCountKey, dbInsert, dbErase, List.filter_filter]

/-- An erased key is no longer among the keys. -/
theorem not_mem_dbKeys_erase (m : Database) (p : Port) :
    p ∉ dbKeys (dbErase m p) := by
  simp [dbKeys, dbErase, List.mem_filter]

/-- contains_key answers false exactly when the lookup comes back empty. -/
theorem dbGet_eq_none_iff (m : Database) (p : Port) :
    dbGet m p = none ↔ dbContains m p = false := by
  simp [dbGet, dbContains, List.find?_eq_none, List.any_eq_true]

/-- A key is among the keys exactly when contains_key answers true. -/
theorem mem_dbKeys_iff (m : Database) (p : Port) :
    p ∈ dbKeys m ↔ dbContains m p = true := by
  simp [dbKeys, dbContains, List.any_eq_true, List.mem_map]

/-- C1: post_new_server rejects (the PortAlreadyInUse case, rendered by the
code as warp reject not_found) exactly when the port key is already in the
map; on that rejection the whole state is unchanged, so a second create with
no intervening delete also rejects and the map still holds exactly one entry
for the port; on success (port absent, bind accepted) it inserts the port
and replies with json echoing the posted body, hence the registered port. -/
theorem C1_create_conflict_iff (env : Env) (st : SysState)
    (body : ServerJsonBody) (hp : st.poisoned = false) :
    (((post_new_server env st body).result = .rejected .notFound) ↔
        dbContains st.map body.port = true)
    ∧ (dbContains st.map body.port = true →
        (post_new_server env st body).state = st)
    ∧ (dbContains st.map body.port = false → env.bindOk body.port = true →
        (post_new_server env st body).result = .ok (.jsonBody body)
        ∧ (post_new_server env st body).state.map
            = dbInsert st.map body.port ⟨st.nextId⟩
        ∧ (post_new_server env ((post_new_server env st body).state)
              body).result = .rejected .notFound
        ∧ (post_new_server env ((post_new_server env st body).state)
              body).state = (post_new_server env st body).state
        ∧ dbCountKey ((post_new_server env
              ((post_new_server env st body).state) body).state.map)
            body.port = 1) := by
  by_cases hc : dbContains st.map body.port = true
  · simp [post_new_server, hp, hc]
  · have hc2 : dbContains st.map body.port = false := by
      simpa using hc
    by_cases hb : env.bindOk body.port = true
    · simp [post_new_server, create_warp_server, hp, hc2, hb,
        dbContains_insert_self, dbCountKey_insert_self]
    · have hb2 : env.bindOk body.port = false := by
        simpa using hb
      simp [post_new_server, create_warp_server, hp, hc2, hb2]

/-- Witness for C1: the empty, unpoisoned state and port 9000 with a
cooperative environment. -/
theorem C1_create_conflict_iff_witness :
    st0.poisoned = false
    ∧ ((((post_new_server envAll st0 ⟨p0⟩).result = .rejected .notFound) ↔
          dbContains st0.map p0 = true)
      ∧ (dbContains st0.map p0 = true →
          (post_new_server envAll st0 ⟨p0⟩).state = st0)
      ∧ (dbContains st0.map p0 = false → envAll.bindOk p0 = true →
          (post_new_server envAll st0 ⟨p0⟩).result = .ok (.jsonBody ⟨p0⟩)
          ∧ (post_new_server envAll st0 ⟨p0⟩).state.map
              = dbInsert st0.map p0 ⟨st0.nextId⟩
          ∧ (post_new_server envAll ((post_new_server envAll st0 ⟨p0⟩).state)
                ⟨p0⟩).result = .rejected .notFound
          ∧ (post_new_server envAll ((post_new_server envAll st0 ⟨p0⟩).state)
                ⟨p0⟩).state = (post_new_server envAll st0 ⟨p0⟩).state
          ∧ dbCountKey ((post_new_server envAll
                ((post_new_server envAll st0 ⟨p0⟩).state) ⟨p0⟩).state.map)
              p0 = 1)) :=
  ⟨rfl, C1_create_conflict_iff envAll st0 ⟨p0⟩ rfl⟩

/-- C2: delete_server rejects (the NotFound case, warp reject not_found)
exactly when the port key is absent from the map, and in that case the state
is unchanged; in particular delete on the empty registry rejects. On success
it removes exactly the entry of the port, sends on exactly the shutdown
channel of the removed entry, and returns the bare status 204 with no
further payload. -/
theorem C2_delete_notfound_iff (env : Env) (st : SysState) (p : Port)
    (hp : st.poisoned = false) :
    (((delete_server env st p).result = .rejected .notFound) ↔
        dbContains st.map p = false)
    ∧ (dbContains st.map p = false → (delete_server env st p).state = st)
    ∧ ((delete_server env ⟨[], 0, false⟩ p).result = .rejected .notFound)
    ∧ (∀ server, dbGet st.map p = some server →
        env.recvAlive server.shutdown = true →
        (delete_server env st p).result = .ok (.status 204)
        ∧ (delete_server env st p).state.map = dbErase st.map p
        ∧ (delete_server env st p).state.poisoned = false
        ∧ (delete_server env st p).events
            = [.lock, .removeKey p, .sendSignal server.shutdown, .unlock]) := by
  rcases hg : dbGet st.map p with _ | server
  · have hc : dbContains st.map p = false := (dbGet_eq_none_iff _ _).mp hg
    refine ⟨by simp [delete_server, hp, hg, hc], ?_, ?_, ?_⟩
    · intro _
      simp [delete_server, hp, hg]
    · simp [delete_server, dbGet]
    · intro server hserver
      exact Option.noConfusion hserver
  · have hc : dbContains st.map p = true := by
      cases hcb : dbContains st.map p
      · rw [(dbGet_eq_none_iff st.map p).mpr hcb] at hg
        cases hg
      · rfl
    by_cases ha : env.recvAlive server.shutdown = true
    · refine ⟨by simp [delete_server, hp, hg, ha, hc], ?_, ?_, ?_⟩
      · intro hcf
        rw [hc] at hcf
        cases hcf
      · simp [delete_server, dbGet]
      · intro server2 hserver2 ha2
        injection hserver2 with hs
        subst hs
        simp [delete_server, hp, hg, ha]
    · have ha2 : env.recvAlive server.shutdown = false := by
        simpa using ha
      refine ⟨by simp [delete_server, hp, hg, ha2, hc], ?_, ?_, ?_⟩
      · intro hcf
        rw [hc] at hcf
        cases hcf
      · simp [delete_server, dbGet]
      · intro server2 hserver2 ha3
        injection hserver2 with hs
        subst hs
        rw [ha3] at ha2
        exact Bool.noConfusion ha2

/-- Witness for C2: the one-server state at port 9000 with a cooperative
environment. -/
theorem C2_delete_notfound_iff_witness :
    st1.poisoned = false
    ∧ ((((delete_server envAll st1 p0).result = .rejected .notFound) ↔
          dbContains st1.map p0 = false)
      ∧ (dbContains st1.map p0 = false → (delete_server envAll st1 p0).state = st1)
      ∧ ((delete_server envAll ⟨[], 0, false⟩ p0).result = .rejected .notFound)
      ∧ (∀ server, dbGet st1.map p0 = some server →
          envAll.recvAlive server.shutdown = true →
          (delete_server envAll st1 p0).result = .ok (.status 204)
          ∧ (delete_server envAll st1 p0).state.map = dbErase st1.map p0
          ∧ (delete_server envAll st1 p0).state.poisoned = false
          ∧ (delete_server envAll st1 p0).events
              = [.lock, .removeKey p0, .sendSignal server.shutdown, .unlock])) :=
  ⟨rfl, C2_delete_notfound_iff envAll st1 p0 rfl⟩

/-- C3 counterexample: with the OS refusing the bind on port 9000 and the
empty map, post_new_server panics (bind_with_graceful_shutdown panics in
warp 0.1) instead of returning any typed error value to the caller, so the
claim that a bind failure is surfaced as a typed BindFailed with no panic is
false at this input. -/
theorem C3_counterexample :
    (post_new_server envNoBind st0 ⟨p0⟩).result = .panicked
    ∧ (∀ r, ¬ (post_new_server envNoBind st0 ⟨p0⟩).result = .rejected r)
    ∧ (∀ a, ¬ (post_new_server envNoBind st0 ⟨p0⟩).result = .ok a) := by
  refine ⟨rfl, ?_, ?_⟩
  · intro r h
    rw [show (post_new_server envNoBind st0 ⟨p0⟩).result = OpResult.panicked
      from rfl] at h
    exact OpResult.noConfusion h
  · intro a h
    rw [show (post_new_server envNoBind st0 ⟨p0⟩).result = OpResult.panicked
      from rfl] at h
    exact OpResult.noConfusion h

/-- C3 amended: when the port is absent from the map but the OS refuses the
bind, post_new_server panics before any insert — the map is left unmodified
and no typed error is returned; the panic happens under the guard, so the
mutex is poisoned. -/
theorem C3_bind_failure_panics (env : Env) (st : SysState)
    (body : ServerJsonBody) (hp : st.poisoned = false)
    (hc : dbContains st.map body.port = false)
    (hb : env.bindOk body.port = false) :
    (post_new_server env st body).result = .panicked
    ∧ (post_new_server env st body).state.map = st.map
    ∧ (post_new_server env st body).state.poisoned = true
    ∧ (post_new_server env st body).events
        = [.lock, .checkExists body.port, .bindSocket body.port] := by
  simp [post_new_server, create_warp_server, hp, hc, hb]

/-- Witness for the amended C3 at the empty state, port 9000 and the
bind-refusing environment. -/
theorem C3_bind_failure_panics_witness :
    st0.poisoned = false ∧ dbContains st0.map p0 = false
    ∧ envNoBind.bindOk p0 = false
    ∧ ((post_new_server envNoBind st0 ⟨p0⟩).result = .panicked
      ∧ (post_new_server envNoBind st0 ⟨p0⟩).state.map = st0.map
      ∧ (post_new_server envNoBind st0 ⟨p0⟩).state.poisoned = true
      ∧ (post_new_server envNoBind st0 ⟨p0⟩).events
          = [.lock, .checkExists p0, .bindSocket p0]) :=
  ⟨rfl, rfl, rfl, C3_bind_failure_panics envNoBind st0 ⟨p0⟩ rfl rfl rfl⟩

/-- C4 counterexample: in the successful delete of port 9000 from the
one-server state, the oneshot send (trace index 2) happens strictly before
the drop of the mutex guard (trace index 3), so the claim that the stop
signal is only ever sent after exclusive access is released is false at this
input. -/
theorem C4_counterexample :
    (delete_server envAll st1 p0).result = .ok (.status 204)
    ∧ ¬ sendAfterUnlock (delete_server envAll st1 p0).events := by
  refine ⟨rfl, ?_⟩
  intro h
  have h2 := h 2 3 0 rfl rfl
  omega

/-- C4 amended: in every successful delete the stop signal is sent strictly
after the removal of the port is committed but strictly before the mutex
guard is dropped — the send happens inside the critical section, since the
guard only goes out of scope when the handler returns. -/
theorem C4_signal_inside_critical (env : Env) (st : SysState) (p : Port)
    (server : RunningServer) (hp : st.poisoned = false)
    (hg : dbGet st.map p = some server)
    (ha : env.recvAlive server.shutdown = true) :
    (delete_server env st p).result = .ok (.status 204)
    ∧ (delete_server env st p).events
        = [.lock, .removeKey p, .sendSignal server.shutdown, .unlock]
    ∧ ¬ sendAfterUnlock (delete_server env st p).events := by
  have he : (delete_server env st p).events
      = [.lock, .removeKey p, .sendSignal server.shutdown, .unlock] := by
    simp [delete_server, hp, hg, ha]
  refine ⟨by simp [delete_server, hp, hg, ha], he, ?_⟩
  rw [he]
  intro h
  have h2 := h 2 3 server.shutdown rfl rfl
  omega

/-- Witness for the amended C4 at the one-server state and port 9000. -/
theorem C4_signal_inside_critical_witness :
    st1.poisoned = false ∧ dbGet st1.map p0 = some ⟨0⟩
    ∧ envAll.recvAlive (0 : Nat) = true
    ∧ ((delete_server envAll st1 p0).result = .ok (.status 204)
      ∧ (delete_server envAll st1 p0).events
          = [.lock, .removeKey p0, .sendSignal 0, .unlock]
      ∧ ¬ sendAfterUnlock (delete_server envAll st1 p0).events) :=
  ⟨rfl, rfl, rfl, C4_signal_inside_critical envAll st1 p0 ⟨0⟩ rfl rfl rfl⟩

/-- C5 counterexample: in the successful create of port 9000 from the empty
state, the tokio spawn (trace index 4) happens strictly before the drop of
the mutex guard (trace index 5), so the claim that the serving task is
scheduled only after exclusive access is released is false at this input. -/
theorem C5_counterexample :
    (post_new_server envAll st0 ⟨p0⟩).result = .ok (.jsonBody ⟨p0⟩)
    ∧ ¬ spawnAfterUnlock (post_new_server envAll st0 ⟨p0⟩).events := by
  refine ⟨rfl, ?_⟩
  intro h
  have h2 := h 4 5 p0 rfl rfl
  omega

/-- C5 amended: every successful create performs, in order, lock, existence
check, bind, insert, spawn, guard drop — the spawn comes strictly after the
committed insert but strictly before the release of exclusive access, since
the guard only goes out of scope when the handler returns. -/
theorem C5_create_order (env : Env) (st : SysState) (body : ServerJsonBody)
    (hp : st.poisoned = false) (hc : dbContains st.map body.port = false)
    (hb : env.bindOk body.port = true) :
    (post_new_server env st body).result = .ok (.jsonBody body)
    ∧ (post_new_server env st body).events
        = [.lock, .checkExists body.port, .bindSocket body.port,
           .insertKey body.port, .spawn body.port, .unlock]
    ∧ ¬ spawnAfterUnlock (post_new_server env st body).events := by
  have he : (post_new_server env st body).events
      = [.lock, .checkExists body.port, .bindSocket body.port,
         .insertKey body.port, .spawn body.port, .unlock] := by
    simp [post_new_server, create_warp_server, hp, hc, hb]
  refine ⟨by simp [post_new_server, create_warp_server, hp, hc, hb], he, ?_⟩
  rw [he]
  intro h
  have h2 := h 4 5 body.port rfl rfl
  omega

/-- Witness for the amended C5 at the empty state and port 9000. -/
theorem C5_create_order_witness :
    st0.poisoned = false ∧ dbContains st0.map p0 = false
    ∧ envAll.bindOk p0 = true
    ∧ ((post_new_server envAll st0 ⟨p0⟩).result = .ok (.jsonBody ⟨p0⟩)
      ∧ (post_new_server envAll st0 ⟨p0⟩).events
          = [.lock, .checkExists p0, .bindSocket p0,
             .insertKey p0, .spawn p0, .unlock]
      ∧ ¬ spawnAfterUnlock (post_new_server envAll st0 ⟨p0⟩).events) :=
  ⟨rfl, rfl, rfl, C5_create_order envAll st0 ⟨p0⟩ rfl rfl rfl⟩

/-- C6: at the state holding one server on port 9000 whose serving loop has
already gone away (the oneshot receiver is dead), delete_server panics on
the unwrap of the send result while still holding the guard: the committed
removal is kept (the map is empty afterwards), but the mutex is poisoned and
every subsequent handler call panics on its own lock().unwrap(), contrary to
the claim that delete never panics and the other operations stay usable. -/
theorem C6_send_failure_panics :
    (delete_server envDeadRecv st1 p0).result = .panicked
    ∧ (delete_server envDeadRecv st1 p0).state.map = []
    ∧ (delete_server envDeadRecv st1 p0).state.poisoned = true
    ∧ (list_servers (delete_server envDeadRecv st1 p0).state).result
        = .panicked
    ∧ (post_new_server envAll (delete_server envDeadRecv st1 p0).state
        ⟨p0⟩).result = .panicked
    ∧ (delete_server envAll (delete_server envDeadRecv st1 p0).state
        p0).result = .panicked :=
  ⟨rfl, rfl, rfl, rfl, rfl, rfl⟩

/-- C7: on an unpoisoned state list_servers never fails: it returns ok with
exactly the keys of the map, each rendered as a record containing the port,
and it leaves the state — in particular the map — unchanged. -/
theorem C7_list_snapshot (st : SysState) (hp : st.poisoned = false) :
    (∃ ports, (list_servers st).result = .ok (.jsonPorts ports)
      ∧ ∀ q : Port, (⟨q⟩ : ServerJsonBody) ∈ ports ↔ q ∈ dbKeys st.map)
    ∧ (list_servers st).state = st
    ∧ (list_servers st).state.map = st.map := by
  refine ⟨⟨(dbKeys st.map).map (fun q => ⟨q⟩), ?_, ?_⟩, ?_, ?_⟩
  · simp [list_servers, hp]
  · intro q
    simp [List.mem_map]
  · simp [list_servers, hp]
  · simp [list_servers, hp]

/-- Witness for C7 at the one-server state. -/
theorem C7_list_snapshot_witness :
    st1.poisoned = false
    ∧ ((∃ ports, (list_servers st1).result = .ok (.jsonPorts ports)
        ∧ ∀ q : Port, (⟨q⟩ : ServerJsonBody) ∈ ports ↔ q ∈ dbKeys st1.map)
      ∧ (list_servers st1).state = st1
      ∧ (list_servers st1).state.map = st1.map) :=
  ⟨rfl, C7_list_snapshot st1 rfl⟩

/-- C8 counterexample: with the default bind succeeding, the state main
hands to the serving loop — the state the very first management request will
see — already holds the default server on port 8080: a list at that point
reports port 8080 rather than no ports, and the map is not the empty map
built by HashMap::new. -/
theorem C8_counterexample :
    mainStartup envAll = some ⟨[((8080 : Port), ⟨0⟩)], 1, false⟩
    ∧ (mainStartup envAll).map (fun st => (list_servers st).result)
        = some (.ok (.jsonPorts [⟨(8080 : Port)⟩]))
    ∧ (mainStartup envAll).map (fun st => st.map) ≠ some initialDatabase
    ∧ ¬ ((mainStartup envAll).map (fun st => (list_servers st).result)
        = some (.ok (.jsonPorts []))) := by
  refine ⟨rfl, rfl, ?_, ?_⟩
  · intro h
    rw [show (mainStartup envAll).map (fun st => st.map)
        = some [((8080 : Port), ⟨0⟩)] from rfl] at h
    injection h with h2
    exact List.noConfusion h2
  · intro h
    rw [show (mainStartup envAll).map (fun st => (list_servers st).result)
        = some (.ok (.jsonPorts [⟨(8080 : Port)⟩])) from rfl] at h
    injection h with h2
    rw [show (OpResult.ok (Reply.jsonPorts [(⟨(8080 : Port)⟩ : ServerJsonBody)])
        = OpResult.ok (Reply.jsonPorts [])) = False by simp] at h2
    exact h2

/-- C8 amended: the map value built by HashMap::new in main is indeed empty,
but before the management listener begins serving, main inserts the handle
of the default server on port 8080 under the lock; so when the default bind
succeeds, the state visible to the first management request holds exactly
port 8080. -/
theorem C8_startup_default (env : Env)
    (hb : env.bindOk (8080 : Port) = true) :
    initialDatabase = []
    ∧ mainStartup env = some ⟨[((8080 : Port), ⟨0⟩)], 1, false⟩
    ∧ ∀ st, mainStartup env = some st →
        dbKeys st.map = [(8080 : Port)]
        ∧ (list_servers st).result = .ok (.jsonPorts [⟨(8080 : Port)⟩]) := by
  have h2 : mainStartup env = some ⟨[((8080 : Port), ⟨0⟩)], 1, false⟩ := by
    simp [mainStartup, create_warp_server, hb, initialDatabase, dbInsert,
      dbErase]
  refine ⟨rfl, h2, ?_⟩
  intro st hst
  rw [h2] at hst
  injection hst with h3
  subst h3
  exact ⟨rfl, rfl⟩

/-- Witness for the amended C8 with the cooperative environment. -/
theorem C8_startup_default_witness :
    envAll.bindOk (8080 : Port) = true
    ∧ (initialDatabase = []
      ∧ mainStartup envAll = some ⟨[((8080 : Port), ⟨0⟩)], 1, false⟩
      ∧ ∀ st, mainStartup envAll = some st →
          dbKeys st.map = [(8080 : Port)]
          ∧ (list_servers st).result = .ok (.jsonPorts [⟨(8080 : Port)⟩])) :=
  ⟨rfl, C8_startup_default envAll rfl⟩

/-- C9: starting from any unpoisoned state without the port, with the bind
accepted and the oneshot receiver of the new server alive at delete time,
the sequential run create, list, delete, list succeeds at every step, the
first list contains the port and the second does not. -/
theorem C9_create_list_delete_list (env : Env) (st : SysState) (p : Port)
    (hp : st.poisoned = false) (hc : dbContains st.map p = false)
    (hb : env.bindOk p = true) (ha : env.recvAlive st.nextId = true) :
    (post_new_server env st ⟨p⟩).result = .ok (.jsonBody ⟨p⟩)
    ∧ (∃ ports1,
        (list_servers (post_new_server env st ⟨p⟩).state).result
          = .ok (.jsonPorts ports1)
        ∧ (⟨p⟩ : ServerJsonBody) ∈ ports1)
    ∧ (delete_server env
        (list_servers (post_new_server env st ⟨p⟩).state).state p).result
        = .ok (.status 204)
    ∧ (∃ ports2,
        (list_servers (delete_server env
            (list_servers (post_new_server env st ⟨p⟩).state).state
            p).state).result
          = .ok (.jsonPorts ports2)
        ∧ (⟨p⟩ : ServerJsonBody) ∉ ports2) := by
  have hA : post_new_server env st ⟨p⟩
      = ⟨.ok (.jsonBody ⟨p⟩),
         ⟨dbInsert st.map p ⟨st.nextId⟩, st.nextId + 1, false⟩,
         [.lock, .checkExists p, .bindSocket p, .insertKey p, .spawn p,
          .unlock]⟩ := by
    simp [post_new_server, create_warp_server, hp, hc, hb]
  have hB : list_servers (post_new_server env st ⟨p⟩).state
      = ⟨.ok (.jsonPorts
            ((dbKeys (dbInsert st.map p ⟨st.nextId⟩)).map (fun q => ⟨q⟩))),
         ⟨dbInsert st.map p ⟨st.nextId⟩, st.nextId + 1, false⟩,
         [.lock, .unlock]⟩ := by
    rw [hA]
    simp [list_servers]
  have hC : delete_server env
      (list_servers (post_new_server env st ⟨p⟩).state).state p
      = ⟨.ok (.status 204), ⟨dbErase st.map p, st.nextId + 1, false⟩,
         [.lock, .removeKey p, .sendSignal st.nextId, .unlock]⟩ := by
    rw [hB]
    simp [delete_server, dbGet_insert_self, ha, dbErase_insert_self]
  have hD : list_servers (delete_server env
      (list_servers (post_new_server env st ⟨p⟩).state).state p).state
      = ⟨.ok (.jsonPorts ((dbKeys (dbErase st.map p)).map (fun q => ⟨q⟩))),
         ⟨dbErase st.map p, st.nextId + 1, false⟩, [.lock, .unlock]⟩ := by
    rw [hC]
    simp [list_servers]
  refine ⟨by rw [hA], ⟨_, by rw [hB], ?_⟩, by rw [hC], ⟨_, by rw [hD], ?_⟩⟩
  · simp [dbKeys, dbInsert]
  · simpa [List.mem_map] using not_mem_dbKeys_erase st.map p

/-- Witness for C9 at the empty state and port 9000 with the cooperative
environment. -/
theorem C9_create_list_delete_list_witness :
    st0.poisoned = false ∧ dbContains st0.map p0 = false
    ∧ envAll.bindOk p0 = true ∧ envAll.recvAlive st0.nextId = true
    ∧ ((post_new_server envAll st0 ⟨p0⟩).result = .ok (.jsonBody ⟨p0⟩)
      ∧ (∃ ports1,
          (list_servers (post_new_server envAll st0 ⟨p0⟩).state).result
            = .ok (.jsonPorts ports1)
          ∧ (⟨p0⟩ : ServerJsonBody) ∈ ports1)
      ∧ (delete_server envAll
          (list_servers (post_new_server envAll st0 ⟨p0⟩).state).state
          p0).result = .ok (.status 204)
      ∧ (∃ ports2,
          (list_servers (delete_server envAll
              (list_servers (post_new_server envAll st0 ⟨p0⟩).state).state
              p0).state).result
            = .ok (.jsonPorts ports2)
          ∧ (⟨p0⟩ : ServerJsonBody) ∉ ports2)) :=
  ⟨rfl, rfl, rfl, rfl, C9_create_list_delete_list envAll st0 p0 rfl rfl rfl rfl⟩

/-- C10: the rejection built by post_new_server for a port already in the
map and the rejection built by delete_server for a port absent from the map
are the identical value, warp reject not_found, so the two conflicts cannot
be told apart by the returned error value alone. -/
theorem C10_same_rejection (env1 env2 : Env) (stA stB : SysState)
    (p q : Port) (hpA : stA.poisoned = false) (hpB : stB.poisoned = false)
    (hc : dbContains stA.map p = true) (hq : dbContains stB.map q = false) :
    (post_new_server env1 stA ⟨p⟩).result = .rejected .notFound
    ∧ (delete_server env2 stB q).result = .rejected .notFound
    ∧ (post_new_server env1 stA ⟨p⟩).result
        = (delete_server env2 stB q).result := by
  have h1 : (post_new_server env1 stA ⟨p⟩).result = .rejected .notFound := by
    simp [post_new_server, hpA, hc]
  have h2 : (delete_server env2 stB q).result = .rejected .notFound := by
    have hg : dbGet stB.map q = none := (dbGet_eq_none_iff _ _).mpr hq
    simp [delete_server, hpB, hg]
  exact ⟨h1, h2, h1.trans h2.symm⟩

/-- Witness for C10: port 9000 is present in the one-server state and absent
from the empty state. -/
theorem C10_same_rejection_witness :
    st1.poisoned = false ∧ st0.poisoned = false
    ∧ dbContains st1.map p0 = true ∧ dbContains st0.map p0 = false
    ∧ ((post_new_server envAll st1 ⟨p0⟩).result = .rejected .notFound
      ∧ (delete_server envAll st0 p0).result = .rejected .notFound
      ∧ (post_new_server envAll st1 ⟨p0⟩).result
          = (delete_server envAll st0 p0).result) :=
  ⟨rfl, rfl, rfl, rfl, C10_same_rejection envAll envAll st1 st0 p0 p0 rfl rfl rfl rfl⟩
